import Mathlib

/-!
Shallow embedding of the `sc` expression calculator.

Source: src/tokenizer.rs (incremental tokenizer over characters) and
src/calculator.rs (incremental stack-based evaluator over tokens).
The Rust `Value` is `malachite::Integer`, an arbitrary-precision signed
integer, embedded as `Int`.  Mutating methods (`&mut self`) are embedded
as explicit state passing; `Result` becomes `Except`.
-/

namespace SC

/-- Value is an arbitrary-precision signed integer (Rust: `pub type Value = Integer`). -/
abbrev Value := Int

/-- Operator enum from tokenizer.rs. -/
inductive Operator where
  | Add
  | Sub
  | Mul
  | Div
  | Pow
deriving DecidableEq, Repr

/-- Token enum from tokenizer.rs. -/
inductive Token where
  | Val : Value → Token
  | Op : Operator → Token
  | ParenOpen : Token
  | ParenClose : Token
deriving DecidableEq, Repr

/-- TokenizeError enum from tokenizer.rs. -/
inductive TokenizeError where
  | InvalidNumber : TokenizeError
  | UnknownOperation : String → TokenizeError
deriving DecidableEq, Repr

/-- TokenizerState enum from tokenizer.rs.  `InNumber` carries the
accumulated value and the active radix (a `u32` in Rust, here `Nat`);
`InOperator` carries the raw buffered characters. -/
inductive TokenizerState where
  | Clean : TokenizerState
  | Pending : Token → TokenizerState
  | InNumber : Value → Nat → TokenizerState
  | InOperator : String → TokenizerState
deriving DecidableEq, Repr

/-- Rust `char::is_whitespace`: the Unicode White_Space property, written
out over code points. -/
def isWhitespaceChar (c : Char) : Bool :=
  decide (9 ≤ c.toNat ∧ c.toNat ≤ 13) || decide (c.toNat = 32) ||
  decide (c.toNat = 133) || decide (c.toNat = 160) || decide (c.toNat = 5760) ||
  decide (8192 ≤ c.toNat ∧ c.toNat ≤ 8202) || decide (c.toNat = 8232) ||
  decide (c.toNat = 8233) || decide (c.toNat = 8239) || decide (c.toNat = 8287) ||
  decide (c.toNat = 12288)

/-- Rust `char::to_digit(radix)`: map `0-9`, `a-z`, `A-Z` to their value
and accept it only when below the radix. -/
def toDigit (c : Char) (radix : Nat) : Option Nat :=
  let d : Option Nat :=
    if '0' ≤ c ∧ c ≤ '9' then some (c.toNat - 48)
    else if 'a' ≤ c ∧ c ≤ 'z' then some (c.toNat - 97 + 10)
    else if 'A' ≤ c ∧ c ≤ 'Z' then some (c.toNat - 65 + 10)
    else none
  match d with
  | some d => if d < radix then some d else none
  | none => none

/-- The character class `'0'..='9' | 'a'..='z' | 'A'..='Z'` used by the
`InNumber` arm of `Tokenizer::update`. -/
def isAlnum (c : Char) : Bool :=
  decide ('0' ≤ c ∧ c ≤ '9') || decide ('a' ≤ c ∧ c ≤ 'z') ||
  decide ('A' ≤ c ∧ c ≤ 'Z')

/-- The character class `'0'..='9' | '+' | '-' | '(' | ')' | 'a'..='z' | 'A'..='Z'`
that terminates an `InOperator` buffer in `Tokenizer::update`. -/
def isOperatorTerminator (c : Char) : Bool :=
  decide ('0' ≤ c ∧ c ≤ '9') || decide (c = '+') || decide (c = '-') ||
  decide (c = '(') || decide (c = ')') || decide ('a' ≤ c ∧ c ≤ 'z') ||
  decide ('A' ≤ c ∧ c ≤ 'Z')

/-- begin_token from tokenizer.rs: classify a character arriving with no
partial token buffered. -/
def begin_token (c : Char) : TokenizerState :=
  if c = '0' then .InNumber 0 8
  else if '1' ≤ c ∧ c ≤ '9' then .InNumber (Int.ofNat (c.toNat - 48)) 10
  else if c = '+' then .Pending (.Op .Add)
  else if c = '-' then .Pending (.Op .Sub)
  else if c = '(' then .Pending .ParenOpen
  else if c = ')' then .Pending .ParenClose
  else if isWhitespaceChar c then .Clean
  else .InOperator (String.mk [c])

/-- finalize_operator from tokenizer.rs: the fixed operator lookup. -/
def finalize_operator (op : String) : Option Token :=
  if op = "+" then some (.Op .Add)
  else if op = "-" then some (.Op .Sub)
  else if op = "/" then some (.Op .Div)
  else if op = "(" then some .ParenOpen
  else if op = ")" then some .ParenClose
  else if op = "*" then some (.Op .Mul)
  else if op = "**" then some (.Op .Pow)
  else none

/-- Tokenizer::update from tokenizer.rs: consume one character, emit at
most one completed token, and move to the next state. -/
def Tokenizer.update (s : TokenizerState) (c : Char) :
    Except TokenizeError (Option Token × TokenizerState) :=
  match s with
  | .Clean => .ok (none, begin_token c)
  | .Pending token => .ok (some token, begin_token c)
  | .InNumber value radix =>
    if c = 'x' ∧ value = 0 ∧ radix = 8 then .ok (none, .InNumber value 16)
    else if c = 'b' ∧ value = 0 ∧ radix = 8 then .ok (none, .InNumber value 2)
    else if isAlnum c then
      match toDigit c radix with
      | some digit => .ok (none, .InNumber (value * (radix : Int) + (digit : Int)) radix)
      | none => .error .InvalidNumber
    else .ok (some (.Val value), begin_token c)
  | .InOperator op =>
    if isOperatorTerminator c then
      match finalize_operator op with
      | some token => .ok (some token, begin_token c)
      | none => .error (.UnknownOperation op)
    else if isWhitespaceChar c then
      match finalize_operator op with
      | some token => .ok (some token, .Clean)
      | none => .error (.UnknownOperation op)
    else .ok (none, .InOperator (op.push c))

/-- Tokenizer::finalize from tokenizer.rs: flush whatever is buffered
(the Rust method also resets the state to Clean via `mem::take`). -/
def Tokenizer.finalize : TokenizerState → Except TokenizeError (Option Token)
  | .Clean => .ok none
  | .Pending token => .ok (some token)
  | .InNumber value _ => .ok (some (.Val value))
  | .InOperator op =>
    match finalize_operator op with
    | some token => .ok (some token)
    | none => .error (.UnknownOperation op)

/-- Run the tokenizer from a given state over a list of characters and
finish with `Tokenizer.finalize`, collecting emitted tokens in order
(the `tokenize` helper of tokenizer.rs's tests). -/
def tokenizeFrom (s : TokenizerState) : List Char → Except TokenizeError (List Token)
  | [] =>
    match Tokenizer.finalize s with
    | .error e => .error e
    | .ok none => .ok []
    | .ok (some t) => .ok [t]
  | c :: cs =>
    match Tokenizer.update s c with
    | .error e => .error e
    | .ok (t, s') =>
      match tokenizeFrom s' cs with
      | .error e => .error e
      | .ok rest =>
        match t with
        | some t => .ok (t :: rest)
        | none => .ok rest

/-- Tokenize a whole string starting from the Clean state. -/
def tokenize (str : String) : Except TokenizeError (List Token) :=
  tokenizeFrom .Clean str.data

/-- CalculatorState enum from calculator.rs. -/
inductive CalculatorState where
  | Empty : CalculatorState
  | Neg : CalculatorState
  | Value : Value → CalculatorState
deriving DecidableEq, Repr

/-- CalculatorError enum from calculator.rs. -/
inductive CalculatorError where
  | NumberExpected : CalculatorError
  | OperationExpected : CalculatorError
  | UnmatchedParen : CalculatorError
deriving DecidableEq, Repr

/-- Operation struct from calculator.rs: a left operand waiting for its
right operand. -/
structure Operation where
  l : Value
  op : Operator
deriving DecidableEq, Repr

/-- Action enum from calculator.rs: a pending-stack entry, either a
parenthesis frame (carrying its negate flag) or a pending operation. -/
inductive Action where
  | Parentheses : Bool → Action
  | Operation : SC.Operation → Action
deriving DecidableEq, Repr

/-- Calculator struct from calculator.rs.  The Rust `Vec` pending stack is
a list whose head is the top of the stack (`push` is cons, `pop` reads the
head). -/
structure Calculator where
  state : CalculatorState := .Empty
  pending : List Action := []
deriving DecidableEq, Repr

/-- Operation::execute from calculator.rs.  `checked_div` yields `None`
exactly on a zero divisor (big integers cannot overflow) and malachite
division truncates toward zero, hence `Int.div`; `unwrap_or(0)` maps the
zero-divisor case to 0.  The `r as u32` exponent cast is modelled as
wrapping to `2 ^ 32`. -/
def Operation.execute (self : Operation) (r : Value) : Value :=
  match self.op with
  | .Add => self.l + r
  | .Sub => self.l - r
  | .Mul => self.l * r
  | .Div => if r = 0 then 0 else Int.tdiv self.l r
  | .Pow => self.l ^ (r % (4294967296 : Int)).toNat

/-- Operation::priority from calculator.rs. -/
def Operation.priority (self : Operation) : Nat :=
  match self.op with
  | .Add | .Sub => 10
  | .Mul | .Div => 20
  | .Pow => 30

/-- Calculator::prioritized_execute from calculator.rs, on the pending
stack alone: pop pending operations of greater-or-equal priority, folding
each into the new operation's left operand, then push the new operation. -/
def prioritized_execute (pending : List Action) (new : Operation) : List Action :=
  match pending with
  | .Operation op :: rest =>
    if op.priority ≥ new.priority then
      prioritized_execute rest { new with l := op.execute new.l }
    else .Operation new :: pending
  | _ => .Operation new :: pending

/-- The pop-and-fold loop of Calculator::finalize_expr: fold pending
operations into the value until a parenthesis frame is popped (applying
its negate flag and stopping) or the stack runs out. -/
def drainGroup (v : Value) : List Action → Value × List Action
  | [] => (v, [])
  | .Parentheses is_negative :: rest => (if is_negative then -v else v, rest)
  | .Operation op :: rest => drainGroup (op.execute v) rest

/-- Calculator::finalize_expr from calculator.rs. -/
def Calculator.finalize_expr (cal : Calculator) : Except CalculatorError Calculator :=
  match cal.state with
  | .Empty => .error .NumberExpected
  | .Neg => .error .NumberExpected
  | .Value v =>
    match drainGroup v cal.pending with
    | (w, rest) => .ok { state := .Value w, pending := rest }

/-- Calculator::handle_token from calculator.rs, with the source's match
arms in source order. -/
def Calculator.handle_token (cal : Calculator) (token : Token) :
    Except CalculatorError Calculator :=
  match cal.state, token with
  | .Empty, .Val v => .ok { cal with state := .Value v }
  | .Neg, .Val v => .ok { cal with state := .Value (-v) }
  | .Empty, .Op .Sub => .ok { cal with state := .Neg }
  | .Neg, .Op .Sub => .ok { cal with state := .Empty }
  | .Empty, .Op .Add => .ok cal
  | .Neg, .Op .Add => .ok cal
  | .Empty, .Op _ => .error .NumberExpected
  | .Neg, .Op _ => .error .NumberExpected
  | .Empty, .ParenClose => .error .NumberExpected
  | .Neg, .ParenClose => .error .NumberExpected
  | .Empty, .ParenOpen =>
    .ok { cal with pending := .Parentheses false :: cal.pending }
  | .Neg, .ParenOpen =>
    .ok { state := .Empty, pending := .Parentheses true :: cal.pending }
  | .Value _, .Val _ => .error .OperationExpected
  | .Value v, .Op op =>
    .ok { state := .Empty, pending := prioritized_execute cal.pending ⟨v, op⟩ }
  | .Value v, .ParenOpen =>
    .ok { state := .Empty,
          pending := .Parentheses false :: .Operation ⟨v, .Mul⟩ :: cal.pending }
  | .Value _, .ParenClose => cal.finalize_expr

/-- Calculator::finalize from calculator.rs: run finalize_expr at top
level, then demand a held value and an empty pending stack; on success
also return the reset calculator (the Rust method leaves `self` at
`Empty` state with the drained stack). -/
def Calculator.finalize (cal : Calculator) :
    Except CalculatorError (Value × Calculator) :=
  match cal.finalize_expr with
  | .error e => .error e
  | .ok cal' =>
    if cal'.pending ≠ [] then .error .UnmatchedParen
    else
      match cal'.state with
      | .Empty => .error .NumberExpected
      | .Neg => .error .NumberExpected
      | .Value v => .ok (v, { state := .Empty, pending := cal'.pending })

/-- Feed a list of tokens to a calculator one at a time (the `calculate`
helper of calculator.rs's tests). -/
def runTokens (cal : Calculator) : List Token → Except CalculatorError Calculator
  | [] => .ok cal
  | t :: ts =>
    match cal.handle_token t with
    | .error e => .error e
    | .ok cal' => runTokens cal' ts

/-- Evaluate a token stream from a fresh calculator, ending with
Calculator::finalize. -/
def calculateTokens (ts : List Token) : Except CalculatorError Value :=
  match runTokens {} ts with
  | .error e => .error e
  | .ok cal =>
    match cal.finalize with
    | .error e => .error e
    | .ok (v, _) => .ok v

/-- On a pending stack with no parenthesis frame, the drain loop of
finalize_expr folds every operation and empties the stack without
failing. -/
theorem drainGroup_no_paren (p : List Action)
    (h : ∀ b, Action.Parentheses b ∉ p) (v : Value) :
    ∃ w, drainGroup v p = (w, []) := by
  induction p generalizing v with
  | nil => exact ⟨v, rfl⟩
  | cons a rest ih =>
    cases a with
    | Parentheses b => exact absurd (List.mem_cons_self _ _) (h b)
    | Operation op =>
      exact ih (fun b hb => h b (List.mem_cons_of_mem _ hb)) (op.execute v)

/-- C1: the claim says an expression ending with one open parenthesis
group, such as the token stream of "(2+2", must fail finalize with
UnmatchedParen.  The code instead lets finalize_expr pop the single
parenthesis frame as an implicit close, so the evaluation succeeds with
the numeric result 4; only a second unmatched frame reaches the
UnmatchedParen check.  This theorem evaluates the code at the failing
input. -/
theorem c1_unmatched_paren_code_bug :
    tokenize "(2+2" = .ok [.ParenOpen, .Val 2, .Op .Add, .Val 2] ∧
    calculateTokens [.ParenOpen, .Val 2, .Op .Add, .Val 2] = .ok 4 ∧
    calculateTokens [.ParenOpen, .ParenOpen, .Val 2, .Op .Add, .Val 2] =
      .error .UnmatchedParen := by
  refine ⟨?_, ?_, ?_⟩ <;> rfl

/-- C2 counterexample: the claim says a stray ParenClose handled while
holding a Value with no parenthesis frame on the stack must fail
immediately and never yield a value.  On the token stream of "2+2)" the
code accepts the stray ParenClose and the whole evaluation succeeds with
4. -/
theorem c2_counterexample :
    Calculator.handle_token ⟨.Value 2, [.Operation ⟨2, .Add⟩]⟩ .ParenClose =
      .ok ⟨.Value 4, []⟩ ∧
    tokenize "2+2)" = .ok [.Val 2, .Op .Add, .Val 2, .ParenClose] ∧
    calculateTokens [.Val 2, .Op .Add, .Val 2, .ParenClose] = .ok 4 := by
  refine ⟨?_, ?_, ?_⟩ <;> rfl

/-- C2 amended: processing ParenClose while holding a Value, when the
pending stack contains no parenthesis frame, folds every pending
operation into the value, empties the stack, and succeeds — the stray
ParenClose is not detected as an error. -/
theorem c2_amended_thm :
    ∀ (v : Value) (p : List Action), (∀ b, Action.Parentheses b ∉ p) →
      ∃ w, Calculator.handle_token ⟨.Value v, p⟩ .ParenClose = .ok ⟨.Value w, []⟩ := by
  intro v p h
  obtain ⟨w, hw⟩ := drainGroup_no_paren p h v
  refine ⟨w, ?_⟩
  show Calculator.finalize_expr ⟨.Value v, p⟩ = .ok ⟨.Value w, []⟩
  simp only [Calculator.finalize_expr]
  rw [hw]

/-- C2 amended, witness: the hypotheses are satisfied at the stack left
by the tokens of "2+2". -/
theorem c2_amended_witness :
    ∃ w, Calculator.handle_token ⟨.Value 2, [.Operation ⟨2, .Add⟩]⟩ .ParenClose =
      .ok ⟨.Value w, []⟩ :=
  c2_amended_thm 2 [.Operation ⟨2, .Add⟩] (by intro b; cases b <;> decide)

/-- C3: operator priorities are Add/Sub = 10, Mul/Div = 20, Pow = 30,
and the greater-or-equal fold gives left-associative evaluation: the
token streams of "2+3*4", "2*3+4" and "2**3**2" evaluate to 14, 10 and
64 respectively. -/
theorem c3_precedence :
    tokenize "2+3*4" = .ok [.Val 2, .Op .Add, .Val 3, .Op .Mul, .Val 4] ∧
    calculateTokens [.Val 2, .Op .Add, .Val 3, .Op .Mul, .Val 4] = .ok 14 ∧
    tokenize "2*3+4" = .ok [.Val 2, .Op .Mul, .Val 3, .Op .Add, .Val 4] ∧
    calculateTokens [.Val 2, .Op .Mul, .Val 3, .Op .Add, .Val 4] = .ok 10 ∧
    tokenize "2**3**2" = .ok [.Val 2, .Op .Pow, .Val 3, .Op .Pow, .Val 2] ∧
    calculateTokens [.Val 2, .Op .Pow, .Val 3, .Op .Pow, .Val 2] = .ok 64 ∧
    ∀ l : Value,
      Operation.priority ⟨l, .Add⟩ = 10 ∧ Operation.priority ⟨l, .Sub⟩ = 10 ∧
      Operation.priority ⟨l, .Mul⟩ = 20 ∧ Operation.priority ⟨l, .Div⟩ = 20 ∧
      Operation.priority ⟨l, .Pow⟩ = 30 :=
  ⟨rfl, rfl, rfl, rfl, rfl, rfl, fun _ => ⟨rfl, rfl, rfl, rfl, rfl⟩⟩

/-- C4 counterexample: the claim says that in the InOperator state a
character that cannot keep the buffer a candidate operator resolves the
buffer first, so '*' then '/' should emit Mul and restart with "/".  In
the code '/' is not in the buffer-terminating character class, so it is
appended: the buffer becomes "*/" with no token emitted, and its later
resolution fails with UnknownOperation "*/" (for instance inside
"2*/2"). -/
theorem c4_counterexample :
    Tokenizer.update (.InOperator "*") '/' = .ok (none, .InOperator "*/") ∧
    Tokenizer.finalize (.InOperator "*/") = .error (.UnknownOperation "*/") ∧
    tokenize "2*/2" = .error (.UnknownOperation "*/") := by
  refine ⟨?_, ?_, ?_⟩ <;> rfl

/-- C4 amended: in the InOperator state the buffer is extended by every
character outside the terminating classes (digits, letters, '+', '-',
'(', ')') and whitespace, regardless of whether the extension is a
candidate operator; a terminating character resolves the buffer through
finalize_operator and is re-dispatched via begin_token. -/
theorem c4_amended_thm :
    (∀ (buf : String) (c : Char), isOperatorTerminator c = false →
        isWhitespaceChar c = false →
        Tokenizer.update (.InOperator buf) c = .ok (none, .InOperator (buf.push c))) ∧
    (∀ (buf : String) (c : Char) (t : Token), isOperatorTerminator c = true →
        finalize_operator buf = some t →
        Tokenizer.update (.InOperator buf) c = .ok (some t, begin_token c)) := by
  constructor
  · intro buf c hterm hws
    simp only [Tokenizer.update, hterm, hws]
    rfl
  · intro buf c t hterm hop
    simp only [Tokenizer.update, hterm, hop]
    rfl

/-- C4 amended, witness: instantiated at the buffer "*" with the
characters '/' (appended) and '2' (resolving to Mul). -/
theorem c4_amended_witness :
    Tokenizer.update (.InOperator "*") '/' = .ok (none, .InOperator "*/") ∧
    Tokenizer.update (.InOperator "*") '2' =
      .ok (some (.Op .Mul), begin_token '2') :=
  ⟨c4_amended_thm.1 "*" '/' (by decide) (by decide),
   c4_amended_thm.2 "*" '2' (.Op .Mul) (by decide) (by decide)⟩

/-- C5: number literals are parsed under the radix selected by prefix
(leading 1-9 decimal, leading 0 octal, 0x hexadecimal, 0b binary), so
"0x1F" gives 31, "0b101" gives 5 and "017" gives 15, while an
alphanumeric character that is not a valid digit in the active radix
fails with InvalidNumber ("0b102" and "123456789A" both fail). -/
theorem c5_radix :
    tokenize "0x1F" = .ok [.Val 31] ∧
    tokenize "0b101" = .ok [.Val 5] ∧
    tokenize "017" = .ok [.Val 15] ∧
    tokenize "0b102" = .error .InvalidNumber ∧
    tokenize "123456789A" = .error .InvalidNumber ∧
    ∀ (v : Value) (r : Nat) (c : Char), isAlnum c = true →
      ¬(c = 'x' ∧ v = 0 ∧ r = 8) → ¬(c = 'b' ∧ v = 0 ∧ r = 8) →
      toDigit c r = none →
      Tokenizer.update (.InNumber v r) c = .error .InvalidNumber := by
  refine ⟨rfl, rfl, rfl, rfl, rfl, ?_⟩
  intro v r c halnum hx hb hdig
  simp only [Tokenizer.update, halnum, hdig]
  rw [if_neg hx, if_neg hb]
  rfl

/-- C5, witness: the digit '2' is alphanumeric but invalid in radix 2,
so it is rejected while parsing a binary literal. -/
theorem c5_radix_witness :
    Tokenizer.update (.InNumber 1 2) '2' = .error .InvalidNumber :=
  c5_radix.2.2.2.2.2 1 2 '2' (by decide) (by decide) (by decide) (by decide)

/-- C6: division never fails — a pending division whose right operand is
zero folds to 0 for every left operand, and the token stream of "5/0"
evaluates to 0. -/
theorem c6_div_zero :
    (∀ l : Value, Operation.execute ⟨l, .Div⟩ 0 = 0) ∧
    tokenize "5/0" = .ok [.Val 5, .Op .Div, .Val 0] ∧
    calculateTokens [.Val 5, .Op .Div, .Val 0] = .ok 0 :=
  ⟨fun _ => rfl, rfl, rfl⟩

/-- C7: ParenOpen received while holding a Value pushes an implicit
multiplication Operation followed by a non-negated parenthesis frame,
ParenOpen received in Neg pushes a negated frame, and the frames act on
the group's folded value on close: the token streams of "2(3)" and
"2*-(2+2)" evaluate to 6 and -8. -/
theorem c7_implicit_mul :
    (∀ (v : Value) (rest : List Action),
      Calculator.handle_token ⟨.Value v, rest⟩ .ParenOpen =
        .ok ⟨.Empty, .Parentheses false :: .Operation ⟨v, .Mul⟩ :: rest⟩) ∧
    (∀ rest : List Action,
      Calculator.handle_token ⟨.Neg, rest⟩ .ParenOpen =
        .ok ⟨.Empty, .Parentheses true :: rest⟩) ∧
    tokenize "2(3)" = .ok [.Val 2, .ParenOpen, .Val 3, .ParenClose] ∧
    calculateTokens [.Val 2, .ParenOpen, .Val 3, .ParenClose] = .ok 6 ∧
    tokenize "2*-(2+2)" =
      .ok [.Val 2, .Op .Mul, .Op .Sub, .ParenOpen, .Val 2, .Op .Add, .Val 2,
           .ParenClose] ∧
    calculateTokens [.Val 2, .Op .Mul, .Op .Sub, .ParenOpen, .Val 2, .Op .Add,
                     .Val 2, .ParenClose] = .ok (-8) :=
  ⟨fun _ _ => rfl, fun _ => rfl, rfl, rfl, rfl, rfl⟩

/-- C8: leading unary minuses XOR — Sub in Empty moves to Neg, Sub in Neg
moves back to Empty, a Number in Neg becomes its negation, and a unary
Add in Empty or Neg is a no-op; the token streams of "--5" and "---5"
evaluate to 5 and -5. -/
theorem c8_unary_minus :
    (∀ rest : List Action,
      Calculator.handle_token ⟨.Empty, rest⟩ (.Op .Sub) = .ok ⟨.Neg, rest⟩) ∧
    (∀ rest : List Action,
      Calculator.handle_token ⟨.Neg, rest⟩ (.Op .Sub) = .ok ⟨.Empty, rest⟩) ∧
    (∀ (v : Value) (rest : List Action),
      Calculator.handle_token ⟨.Neg, rest⟩ (.Val v) = .ok ⟨.Value (-v), rest⟩) ∧
    (∀ rest : List Action,
      Calculator.handle_token ⟨.Empty, rest⟩ (.Op .Add) = .ok ⟨.Empty, rest⟩) ∧
    (∀ rest : List Action,
      Calculator.handle_token ⟨.Neg, rest⟩ (.Op .Add) = .ok ⟨.Neg, rest⟩) ∧
    tokenize "--5" = .ok [.Op .Sub, .Op .Sub, .Val 5] ∧
    calculateTokens [.Op .Sub, .Op .Sub, .Val 5] = .ok 5 ∧
    tokenize "---5" = .ok [.Op .Sub, .Op .Sub, .Op .Sub, .Val 5] ∧
    calculateTokens [.Op .Sub, .Op .Sub, .Op .Sub, .Val 5] = .ok (-5) :=
  ⟨fun _ => rfl, fun _ => rfl, fun _ _ => rfl, fun _ => rfl, fun _ => rfl,
   rfl, rfl, rfl, rfl⟩

/-- C9 counterexample: the claim says inserting or removing ASCII
whitespace between tokens never changes the emitted token sequence.
Removing the whitespace between the two Mul tokens of "* *" merges them
into the single Pow token of "**", and removing it between the two
number tokens of "2 2" merges them into the single number 22. -/
theorem c9_counterexample :
    tokenize "* *" = .ok [.Op .Mul, .Op .Mul] ∧
    tokenize "**" = .ok [.Op .Pow] ∧
    ([Token.Op .Pow] ≠ [Token.Op .Mul, Token.Op .Mul]) ∧
    tokenize "2 2" = .ok [.Val 2, .Val 2] ∧
    tokenize "22" = .ok [.Val 22] := by
  refine ⟨rfl, rfl, ?_, rfl, rfl⟩
  decide

/-- C9 amended: inserting ASCII whitespace between tokens leaves the
token sequence unchanged in the cited instance — "2+2" and "2 + 2"
tokenize identically — and an ASCII whitespace character arriving in the
Clean state is skipped without emitting anything; removing whitespace
between tokens, however, can change the sequence. -/
theorem c9_amended_thm :
    tokenize "2+2" = tokenize "2 + 2" ∧
    tokenize "2 + 2" = .ok [.Val 2, .Op .Add, .Val 2] ∧
    ∀ c : Char, c ∈ ([' ', '\t', '\n', '\x0b', '\x0c', '\r'] : List Char) →
      Tokenizer.update .Clean c = .ok (none, .Clean) := by
  refine ⟨rfl, rfl, ?_⟩
  intro c hc
  fin_cases hc <;> rfl

/-- C9 amended, witness: instantiated at the space character. -/
theorem c9_amended_witness :
    Tokenizer.update .Clean ' ' = .ok (none, .Clean) :=
  c9_amended_thm.2.2 ' ' (by decide)

/-- C10: whenever Calculator::finalize succeeds, the returned calculator
is back in the initial configuration — Empty state and empty pending
stack — so the instance is reusable for the next expression. -/
theorem c10_finalize_resets :
    ∀ (cal : Calculator) (v : Value) (cal' : Calculator),
      cal.finalize = .ok (v, cal') → cal'.state = .Empty ∧ cal'.pending = [] := by
  intro cal v cal' h
  unfold Calculator.finalize at h
  split at h
  · exact absurd h (by simp)
  next cal2 heq =>
    split at h
    · exact absurd h (by simp)
    next hne =>
      have hp : cal2.pending = [] := not_not.mp hne
      split at h
      · exact absurd h (by simp)
      · exact absurd h (by simp)
      next w hs =>
        simp only [Except.ok.injEq, Prod.mk.injEq] at h
        obtain ⟨-, hcal⟩ := h
        subst hcal
        exact ⟨rfl, hp⟩

/-- C10, witness: a calculator holding the value 5 over an empty stack
finalizes successfully, so the hypothesis is satisfiable. -/
theorem c10_finalize_resets_witness :
    (Calculator.mk .Empty []).state = .Empty ∧
    (Calculator.mk .Empty []).pending = [] :=
  c10_finalize_resets ⟨.Value 5, []⟩ 5 ⟨.Empty, []⟩ rfl

end SC
